import Mathlib

/-!
Shallow embedding of the blueapi task-orchestration layer, covering the
worker-side bridge (`src/blueapi/service/app.py`) and the controller's
`run` command with its post-completion handling
(`src/blueapi/cli/cli.py`).  Definitions are transcribed from the Python
source; the few collaborators that live outside the given source files
(the `EventBusClient`, the `WorkerEvent` schema) are modelled from the
specification and marked as such in their doc comments.
-/

namespace Blueapi

/-! ## Data model -/

/-- Parameter mappings (Python `dict[str, ...]`), modelled as association
lists in insertion order; the value type is opaque to all code embedded
here, so plain strings suffice. -/
abbrev Params := List (String × String)

/-- `blueapi.worker.Task` as constructed in `cli.py`:
`Task(name=name, params=parsed_params)`. -/
structure Task where
  name : String
  params : Params
  deriving DecidableEq, Repr

/-- `blueapi.service.model.WorkerTask`: the payload of the start command,
`WorkerTask(task_id=task_id)`. -/
structure WorkerTask where
  task_id : String
  deriving DecidableEq, Repr

/-- Modelled from the spec: `WorkerState` is "enumerated {IDLE, RUNNING,
PAUSED, ABORTING, STOPPING, …}; a terminal subset governs completion".
The glossary describes a terminal event as one "whose state signals the
task has finished, errored, aborted, or stopped"; those four terminal
states are listed after the five the spec names. -/
inductive WorkerState where
  | idle
  | running
  | paused
  | aborting
  | stopping
  | complete
  | failed
  | aborted
  | stopped
  deriving DecidableEq, Repr

/-- Modelled from the spec: the terminal subset of `WorkerState`
(finished, errored, aborted or stopped). -/
def WorkerState.isTerminal : WorkerState → Bool
  | .complete => true
  | .failed => true
  | .aborted => true
  | .stopped => true
  | _ => false

/-- Modelled from the spec: `WorkerEvent` is "{state: WorkerState,
errors: ordered list of strings, warnings: ordered list of strings, task
reference}". -/
structure WorkerEvent where
  state : WorkerState
  task_ref : Option String
  errors : List String
  warnings : List String
  deriving DecidableEq, Repr

/-- Modelled from the spec: "`is_complete()` is true when state is
terminal". -/
def WorkerEvent.is_complete (e : WorkerEvent) : Bool :=
  e.state.isTerminal

/-- Modelled from the spec: "`is_error()` is true when errors is
non-empty". -/
def WorkerEvent.is_error (e : WorkerEvent) : Bool :=
  !e.errors.isEmpty

/-! ## Worker-side bridge (`src/blueapi/service/app.py`) -/

/-- `MessageContext` as used by the bridge handlers: only the
`reply_destination` field is consulted. -/
structure MessageContext where
  reply_destination : Option String
  deriving DecidableEq, Repr

/-- `blueapi.worker.RunPlan`: the inbound task description of a
run-request.  Its fields are never inspected by the bridge, which only
forwards it, so it is kept opaque. -/
structure RunPlan where
  payload : String
  deriving DecidableEq, Repr

/-- Result of `_display_plan`: `{"name": plan.name}`. -/
structure PlanDesc where
  name : String
  deriving DecidableEq, Repr

/-- Result of `_display_device`: `{"name": ..., "protocols": [...]}`. -/
structure DeviceDesc where
  name : String
  protocols : List String
  deriving DecidableEq, Repr

/-- A registered plan (`blueapi.core.Plan`); only its `name` is read. -/
structure Plan where
  name : String
  deriving DecidableEq, Repr

/-- A registered device (`blueapi.core.Device`).  `isinstance` checks
against external protocol classes are modelled by Boolean fields
(`readable`, `flyable`) and by the list of names of the
`BLUESKY_PROTOCOLS` entries the device is an instance of, kept in
`BLUESKY_PROTOCOLS` iteration order as `_protocol_names` yields them. -/
structure Device where
  device_name : String
  readable : Bool
  flyable : Bool
  protocol_names : List String
  deriving DecidableEq, Repr

/-- The module-level `BlueskyContext` (`ctx`): its registered plans and
devices, in the iteration order of `ctx.plans.values()` and
`ctx.devices.values()`. -/
structure BlueskyContext where
  plans : List Plan
  devices : List Device
  deriving DecidableEq, Repr

/-- `_display_plan(plan)`. -/
def display_plan (p : Plan) : PlanDesc :=
  { name := p.name }

/-- `_display_device(device)`: the name is `device.name` when the device
is `Readable` or `Flyable`, and `"UNKNOWN"` otherwise; the protocols are
`list(_protocol_names(device))`. -/
def display_device (d : Device) : DeviceDesc :=
  { name := if d.readable || d.flyable then d.device_name else "UNKNOWN"
    protocols := d.protocol_names }

/-- Payloads the bridge sends over the message bus. -/
inductive Payload where
  | taskId (name : String)
  | planList (plans : List PlanDesc)
  | deviceList (devices : List DeviceDesc)
  | workerEvent (e : WorkerEvent)
  deriving DecidableEq, Repr

/-- Observable effects of one bridge handler invocation. -/
inductive BridgeAction where
  | submitTask (name : String) (task : RunPlan)
  | send (destination : String) (payload : Payload)
  deriving DecidableEq, Repr

/-- The outcome of running a bridge handler: the effects it performed,
and whether it died on a failed `assert` (it performs nothing after
that point). -/
structure HandlerResult where
  actions : List BridgeAction
  assertionFailed : Bool
  deriving DecidableEq, Repr

/-- `Service._on_run_request`: generates a fresh id (`uuid.uuid1()`,
modelled as the injected `freshId`), submits the task under it, asserts
the reply destination is present and replies with the id there. -/
def Service.on_run_request (freshId : String) (mc : MessageContext)
    (task : RunPlan) : HandlerResult :=
  match mc.reply_destination with
  | none => { actions := [.submitTask freshId task], assertionFailed := true }
  | some dest =>
      { actions := [.submitTask freshId task, .send dest (.taskId freshId)]
        assertionFailed := false }

/-- `Service._get_plans`: maps `_display_plan` over `ctx.plans.values()`,
asserts the reply destination is present and replies with the list. -/
def Service.get_plans (ctx : BlueskyContext) (mc : MessageContext)
    (_message : String) : HandlerResult :=
  let plans := ctx.plans.map display_plan
  match mc.reply_destination with
  | none => { actions := [], assertionFailed := true }
  | some dest =>
      { actions := [.send dest (.planList plans)], assertionFailed := false }

/-- `Service._get_devices`: maps `_display_device` over
`ctx.devices.values()`, asserts the reply destination is present and
replies with the list. -/
def Service.get_devices (ctx : BlueskyContext) (mc : MessageContext)
    (_message : String) : HandlerResult :=
  let devices := ctx.devices.map display_device
  match mc.reply_destination with
  | none => { actions := [], assertionFailed := true }
  | some dest =>
      { actions := [.send dest (.deviceList devices)], assertionFailed := false }

/-- The handlers `Service.run` can bind to inbound topics. -/
inductive HandlerKind where
  | onRunRequest
  | getPlans
  | getDevices
  deriving DecidableEq, Repr

/-- The subscriptions established by `Service.run` (app.py lines 52-54),
exactly as written: `worker.run ↦ _on_run_request`,
`worker.plans ↦ _get_plans`, `worker.devices ↦ _get_plans`. -/
def Service.subscriptions : List (String × HandlerKind) :=
  [("worker.run", .onRunRequest),
   ("worker.plans", .getPlans),
   ("worker.devices", .getPlans)]

/-- The handler `Service.run` bound to a topic, if any. -/
def Service.handlerFor (topic : String) : Option HandlerKind :=
  (Service.subscriptions.find? (fun s => s.1 == topic)).map (·.2)

/-- Dispatch of an inbound query message (empty payload, both query
handlers ignore the message body) on a topic, through the subscriptions
`Service.run` established. -/
def Service.dispatchQuery (ctx : BlueskyContext) (topic : String)
    (mc : MessageContext) (message : String) : Option HandlerResult :=
  match Service.handlerFor topic with
  | some .getPlans => some (Service.get_plans ctx mc message)
  | some .getDevices => some (Service.get_devices ctx mc message)
  | _ => none

/-! ## Controller `run` command (`src/blueapi/cli/cli.py`) -/

/-- A log record emitted through `logging.Logger` by the controller. -/
inductive LogRecord where
  | info (msg : String)
  | error (msg : String)
  | warn (msg : String)
  deriving DecidableEq, Repr

/-- `process_event_after_finished(event, logger)` (cli.py lines 282-294),
returning the log records it emits in order. -/
def process_event_after_finished (event : WorkerEvent) : List LogRecord :=
  if event.is_error then
    LogRecord.info "Failed with errors: \n" :: event.errors.map LogRecord.error
  else if event.warnings.length ≠ 0 then
    LogRecord.info "Passed with warnings: \n" :: event.warnings.map LogRecord.warn
  else
    [LogRecord.info "Plan passed"]

/-- One call of the closure `store_finished_event` (cli.py lines 189-191):
`finished_event.append(event)` when `event.is_complete()`, appending at
the right end of the deque. -/
def store_finished_event (buffer : List WorkerEvent) (event : WorkerEvent) :
    List WorkerEvent :=
  if event.is_complete then buffer ++ [event] else buffer

/-- The `finished_event` deque after the delivered events have each been
passed to `store_finished_event`, starting from the empty `deque()`. -/
def finishedEventBuffer (delivered : List WorkerEvent) : List WorkerEvent :=
  delivered.foldl store_finished_event []

/-- Python `deque.pop()`: removes and returns the rightmost element;
`none` models the `IndexError` raised on an empty deque. -/
def dequePop (buffer : List WorkerEvent) : Option WorkerEvent :=
  buffer.getLast?

/-- Outcome of `client.create_task(task)` together with the preceding
`Task(...)` construction: the branches of the `try` in `run_plan`
(cli.py lines 196-208). -/
inductive CreateTaskResult where
  | ok (task_id : String)
  | validationError (msg : String)
  | blueskyRemoteError (msg : String)
  | valueError
  deriving DecidableEq, Repr

/-- Observable steps of one `run_plan` invocation, in program order. -/
inductive CliAction where
  | pprintMsg (msg : String)
  | createTask (task : Task)
  | connect
  | subscribeToTopics (task_id : String)
  | updateWorkerTask (w : WorkerTask)
  | waitForComplete (timeout : Option ℚ)
  | logTimedOutError (timeout : Option ℚ)
  | disconnect
  | popEmptyError
  | log (record : LogRecord)
  | pprintUpdated (w : WorkerTask)
  deriving DecidableEq, Repr

/-- The collaborators `run_plan` calls out to, abstracted as oracles:
`stompConfigured` is whether `config.stomp is not None`; `loads` is
Python's `json.loads` restricted to the top-level object mapping;
`createTaskResult` is the joint outcome of `Task(...)` and
`client.create_task`; `updateResult` is the `WorkerTask` returned by
`client.update_worker_task`; `timedOut` is the `timed_out` flag of the
`EventBusClient` after `wait_for_complete` returns (modelled from the
spec: `wait_for_complete` "never raises on timeout — sets an observable
`timed_out` flag instead"); `delivered` is the sequence of matching
events the bus delivered to `store_finished_event` during the `with`
block. -/
structure RunPlanEnv where
  stompConfigured : Bool
  loads : String → Params
  createTaskResult : Task → CreateTaskResult
  updateResult : WorkerTask → WorkerTask
  timedOut : Bool
  delivered : List WorkerEvent

/-- `parameters = parameters or "{}"` (cli.py line 193): the argument is
an optional string; `None` and the empty string are falsy. -/
def effectiveParameters : Option String → String
  | none => "{}"
  | some s => if s = "" then "{}" else s

/-- The `Task` value `run_plan` constructs (cli.py lines 193-197):
`parsed_params = json.loads(parameters)` (after line 193 `parameters` is
always a `str`, so the `isinstance` branch always applies), then
`Task(name=name, params=parsed_params)`. -/
def runPlanTask (env : RunPlanEnv) (name : String)
    (parameters : Option String) : Task :=
  { name := name, params := env.loads (effectiveParameters parameters) }

/-- `run_plan(obj, name, parameters, timeout)` (cli.py lines 173-221) as
the ordered list of its observable steps.  `return` inside the `with`
block still runs the context manager's exit (disconnect); a `deque.pop()`
on an empty buffer raises `IndexError`, after which nothing further
runs. -/
def run_plan (env : RunPlanEnv) (name : String) (parameters : Option String)
    (timeout : Option ℚ) : List CliAction :=
  if !env.stompConfigured then
    [.pprintMsg "ERROR: Cannot run plans without Stomp configuration to track progress"]
  else
    let task := runPlanTask env name parameters
    match env.createTaskResult task with
    | .validationError e =>
        [.createTask task,
         .pprintMsg ("failed to validate the task parameters, , error: " ++ e)]
    | .blueskyRemoteError e =>
        [.createTask task, .pprintMsg ("server error with this message: " ++ e)]
    | .valueError =>
        [.createTask task, .pprintMsg "task could not run"]
    | .ok task_id =>
        let updated := env.updateResult { task_id := task_id }
        [.createTask task, .connect, .subscribeToTopics task_id,
         .updateWorkerTask { task_id := task_id }, .waitForComplete timeout] ++
        if env.timedOut then
          [.logTimedOutError timeout, .disconnect]
        else
          [.disconnect] ++
          match dequePop (finishedEventBuffer env.delivered) with
          | none => [.popEmptyError]
          | some e =>
              (process_event_after_finished e).map CliAction.log ++
              [.pprintUpdated updated]

/-! ## Concrete instances used by witnesses and counterexamples -/

/-- A context with one registered plan and one registered device, for
evaluating the bridge's query handlers on concrete input. -/
def sampleContext : BlueskyContext :=
  { plans := [{ name := "sleep" }]
    devices := [{ device_name := "x", readable := true, flyable := false
                  protocol_names := ["Readable", "Movable"] }] }

/-- A terminal event with no errors and no warnings. -/
def cleanTerminalEvent : WorkerEvent :=
  { state := .complete, task_ref := some "tid", errors := [], warnings := [] }

/-- A terminal event carrying one error. -/
def failedTerminalEvent : WorkerEvent :=
  { state := .failed, task_ref := some "tid", errors := ["boom"], warnings := [] }

/-- A terminal event with no errors but one warning. -/
def warnedTerminalEvent : WorkerEvent :=
  { state := .complete, task_ref := some "tid", errors := [], warnings := ["w"] }

/-- A `json.loads` model that sends the empty object literal to the empty
mapping and everything else to a marker mapping. -/
def sampleLoads : String → Params :=
  fun s => if s = "{}" then [] else [("k", "v")]

/-- An environment in which task creation succeeds with id `"tid"` and
the wait does not time out; two terminal events are delivered. -/
def sampleEnv : RunPlanEnv :=
  { stompConfigured := true
    loads := sampleLoads
    createTaskResult := fun _ => .ok "tid"
    updateResult := fun w => w
    timedOut := false
    delivered := [cleanTerminalEvent, failedTerminalEvent] }

/-- `sampleEnv` with schema validation failing. -/
def invalidParamsEnv : RunPlanEnv :=
  { sampleEnv with createTaskResult := fun _ => .validationError "bad params" }

/-- `sampleEnv` with the wait timing out. -/
def timedOutEnv : RunPlanEnv :=
  { sampleEnv with timedOut := true }

/-! ## Helper lemmas -/

/-- Folding `store_finished_event` appends, in delivery order, exactly
the events satisfying `is_complete`. -/
theorem foldl_store_finished_event (acc : List WorkerEvent)
    (l : List WorkerEvent) :
    l.foldl store_finished_event acc = acc ++ l.filter (·.is_complete) := by
  induction l generalizing acc with
  | nil => simp
  | cons e l ih =>
      simp only [List.foldl_cons, List.filter_cons, store_finished_event, ih]
      cases h : e.is_complete <;> simp [h]

/-! ## Claim theorems -/

/-- C1: the devices-query topic is dispatched at all, but `Service.run`
(app.py line 54) subscribes `_get_plans` to `"worker.devices"`, so on a
concrete context the bridge replies with the list of plan descriptors,
while the never-subscribed `_get_devices` would have replied with the
device descriptors (name and protocols): the two replies differ. -/
theorem devices_query_answered_by_plans_handler :
    Service.handlerFor "worker.devices" = some .getPlans ∧
    Service.dispatchQuery sampleContext "worker.devices"
        { reply_destination := some "replyq" } "" =
      some { actions := [.send "replyq" (.planList [{ name := "sleep" }])]
             assertionFailed := false } ∧
    Service.get_devices sampleContext { reply_destination := some "replyq" } "" =
      { actions := [.send "replyq"
          (.deviceList [{ name := "x", protocols := ["Readable", "Movable"] }])]
        assertionFailed := false } ∧
    Service.dispatchQuery sampleContext "worker.devices"
        { reply_destination := some "replyq" } "" ≠
      some (Service.get_devices sampleContext
        { reply_destination := some "replyq" } "") := by
  refine ⟨rfl, rfl, rfl, ?_⟩
  decide

/-- C6: each bridge handler that must reply (`_on_run_request`,
`_get_plans`, `_get_devices`) hits a failed `assert` when the inbound
message has no reply destination: the handler does not complete
normally and sends nothing to any destination. -/
theorem missing_reply_destination_is_fatal (freshId : String) (task : RunPlan)
    (ctx : BlueskyContext) (m : String) (mc : MessageContext)
    (h : mc.reply_destination = none) :
    ((Service.on_run_request freshId mc task).assertionFailed = true ∧
      ∀ d p, BridgeAction.send d p ∉ (Service.on_run_request freshId mc task).actions) ∧
    ((Service.get_plans ctx mc m).assertionFailed = true ∧
      (Service.get_plans ctx mc m).actions = []) ∧
    ((Service.get_devices ctx mc m).assertionFailed = true ∧
      (Service.get_devices ctx mc m).actions = []) := by
  obtain ⟨rd⟩ := mc
  cases h
  simp [Service.on_run_request, Service.get_plans, Service.get_devices]

/-- C6 witness: the three handlers at a concrete message with no reply
destination. -/
theorem missing_reply_destination_is_fatal_at_input :
    ({ reply_destination := none } : MessageContext).reply_destination = none ∧
    ((Service.on_run_request "id" { reply_destination := none }
        { payload := "p" }).assertionFailed = true ∧
      ∀ d p, BridgeAction.send d p ∉
        (Service.on_run_request "id" { reply_destination := none }
          { payload := "p" }).actions) ∧
    ((Service.get_plans sampleContext { reply_destination := none }
        "").assertionFailed = true ∧
      (Service.get_plans sampleContext { reply_destination := none }
        "").actions = []) ∧
    ((Service.get_devices sampleContext { reply_destination := none }
        "").assertionFailed = true ∧
      (Service.get_devices sampleContext { reply_destination := none }
        "").actions = []) :=
  ⟨rfl, missing_reply_destination_is_fatal "id" { payload := "p" }
    sampleContext "" { reply_destination := none } rfl⟩

/-- C7: on a run-request whose context carries a reply destination, the
handler submits the task to the worker under the freshly generated id
and then sends that same id to the request's reply destination, without
any assertion failure. -/
theorem run_request_replies_with_submitted_id (freshId : String)
    (task : RunPlan) (mc : MessageContext) (dest : String)
    (h : mc.reply_destination = some dest) :
    Service.on_run_request freshId mc task =
      { actions := [.submitTask freshId task, .send dest (.taskId freshId)]
        assertionFailed := false } := by
  obtain ⟨rd⟩ := mc
  cases h
  rfl

/-- C7 witness: the run-request handler at a concrete message. -/
theorem run_request_replies_with_submitted_id_at_input :
    ({ reply_destination := some "replyq" } : MessageContext).reply_destination =
      some "replyq" ∧
    Service.on_run_request "fresh" { reply_destination := some "replyq" }
        { payload := "p" } =
      { actions := [.submitTask "fresh" { payload := "p" },
                    .send "replyq" (.taskId "fresh")]
        assertionFailed := false } :=
  ⟨rfl, run_request_replies_with_submitted_id "fresh" { payload := "p" }
    { reply_destination := some "replyq" } "replyq" rfl⟩

/-- C8 counterexample: a terminal event with no errors but one warning is
reported as "Passed with warnings", and "Plan passed" is never logged,
so the claim as stated fails. -/
theorem no_errors_not_always_plan_passed :
    warnedTerminalEvent.is_complete = true ∧
    warnedTerminalEvent.is_error = false ∧
    process_event_after_finished warnedTerminalEvent =
      [.info "Passed with warnings: \n", .warn "w"] ∧
    LogRecord.info "Plan passed" ∉
      process_event_after_finished warnedTerminalEvent := by
  refine ⟨rfl, rfl, rfl, ?_⟩
  decide

/-- C8 amended: for every terminal `WorkerEvent` with no errors and no
warnings, the post-completion handling reports exactly "Plan passed". -/
theorem clean_terminal_event_reports_plan_passed (e : WorkerEvent)
    (hc : e.is_complete = true) (he : e.errors = []) (hw : e.warnings = []) :
    process_event_after_finished e = [.info "Plan passed"] := by
  simp [process_event_after_finished, WorkerEvent.is_error, he, hw]

/-- C8 amended witness: a concrete clean terminal event. -/
theorem clean_terminal_event_reports_plan_passed_at_input :
    cleanTerminalEvent.is_complete = true ∧
    cleanTerminalEvent.errors = [] ∧
    cleanTerminalEvent.warnings = [] ∧
    process_event_after_finished cleanTerminalEvent = [.info "Plan passed"] :=
  ⟨rfl, rfl, rfl,
    clean_terminal_event_reports_plan_passed cleanTerminalEvent rfl rfl rfl⟩

/-- C9: when errors and warnings are both non-empty, the error branch
logs the header and one error record per error, then returns: no
warning record is ever emitted. -/
theorem error_branch_suppresses_warnings (e : WorkerEvent)
    (he : e.errors ≠ []) (hw : e.warnings ≠ []) :
    process_event_after_finished e =
      LogRecord.info "Failed with errors: \n" :: e.errors.map LogRecord.error ∧
    ∀ m, LogRecord.warn m ∉ process_event_after_finished e := by
  have herr : e.is_error = true := by
    simp [WorkerEvent.is_error, List.isEmpty_iff, he]
  constructor
  · simp [process_event_after_finished, herr]
  · intro m
    simp [process_event_after_finished, herr]

/-- C9 witness: a concrete event with one error and one warning. -/
theorem error_branch_suppresses_warnings_at_input :
    (({ state := .failed, task_ref := some "tid", errors := ["boom"],
        warnings := ["w"] } : WorkerEvent).errors ≠ [] ∧
     ({ state := .failed, task_ref := some "tid", errors := ["boom"],
        warnings := ["w"] } : WorkerEvent).warnings ≠ []) ∧
    (process_event_after_finished
        { state := .failed, task_ref := some "tid", errors := ["boom"],
          warnings := ["w"] } =
      LogRecord.info "Failed with errors: \n" ::
        (["boom"].map LogRecord.error) ∧
     ∀ m, LogRecord.warn m ∉ process_event_after_finished
        { state := .failed, task_ref := some "tid", errors := ["boom"],
          warnings := ["w"] }) :=
  ⟨⟨by decide, by decide⟩,
    error_branch_suppresses_warnings
      { state := .failed, task_ref := some "tid", errors := ["boom"],
        warnings := ["w"] } (by decide) (by decide)⟩

/-- C2 counterexample: two terminal events delivered for the tracked id;
the deque retains both (`append` filters nothing out after the first),
and `finished_event.pop()` pops from the right, so the post-completion
reporting uses the second (last) terminal event, not the first: in a
run of `run_plan` it logs that event's error and never "Plan passed". -/
theorem later_terminal_event_wins :
    cleanTerminalEvent.is_complete = true ∧
    failedTerminalEvent.is_complete = true ∧
    failedTerminalEvent ≠ cleanTerminalEvent ∧
    finishedEventBuffer [cleanTerminalEvent, failedTerminalEvent] ≠
      [cleanTerminalEvent] ∧
    dequePop (finishedEventBuffer [cleanTerminalEvent, failedTerminalEvent]) =
      some failedTerminalEvent ∧
    CliAction.log (.error "boom") ∈ run_plan sampleEnv "sleep" none none ∧
    CliAction.log (.info "Plan passed") ∉ run_plan sampleEnv "sleep" none none := by
  decide

/-- C2 amended: the completion buffer retains every delivered terminal
event in delivery order, and the event handed to the post-completion
reporting (`deque.pop`) is the last terminal event observed, not the
first. -/
theorem completion_buffer_keeps_all_uses_last (delivered : List WorkerEvent) :
    finishedEventBuffer delivered = delivered.filter (·.is_complete) ∧
    dequePop (finishedEventBuffer delivered) =
      (delivered.filter (·.is_complete)).getLast? := by
  have h : finishedEventBuffer delivered = delivered.filter (·.is_complete) := by
    simpa [finishedEventBuffer] using
      foldl_store_finished_event [] delivered
  exact ⟨h, by rw [h]; rfl⟩

/-- C3: when the submission oracle reports a `ValidationError` for the
constructed task, `run_plan` prints the validation-failure message and
returns at once: the trace is exactly the attempted creation plus the
report, and no `update_worker_task` start command occurs in it. -/
theorem validation_failure_precludes_start (env : RunPlanEnv) (name : String)
    (parameters : Option String) (timeout : Option ℚ) (msg : String)
    (hs : env.stompConfigured = true)
    (hv : env.createTaskResult (runPlanTask env name parameters) =
      .validationError msg) :
    run_plan env name parameters timeout =
      [.createTask (runPlanTask env name parameters),
       .pprintMsg ("failed to validate the task parameters, , error: " ++ msg)] ∧
    ∀ w, CliAction.updateWorkerTask w ∉ run_plan env name parameters timeout := by
  have h1 : run_plan env name parameters timeout =
      [.createTask (runPlanTask env name parameters),
       .pprintMsg ("failed to validate the task parameters, , error: " ++ msg)] := by
    simp [run_plan, hs, hv]
  refine ⟨h1, fun w => ?_⟩
  rw [h1]
  simp

/-- C3 witness: a concrete environment whose validation fails. -/
theorem validation_failure_precludes_start_at_input :
    invalidParamsEnv.stompConfigured = true ∧
    invalidParamsEnv.createTaskResult
        (runPlanTask invalidParamsEnv "sleep" none) =
      .validationError "bad params" ∧
    (run_plan invalidParamsEnv "sleep" none none =
      [.createTask (runPlanTask invalidParamsEnv "sleep" none),
       .pprintMsg
         ("failed to validate the task parameters, , error: " ++ "bad params")] ∧
     ∀ w, CliAction.updateWorkerTask w ∉ run_plan invalidParamsEnv "sleep" none none) :=
  ⟨rfl, rfl,
    validation_failure_precludes_start invalidParamsEnv "sleep" none none
      "bad params" rfl rfl⟩

/-- C4: whenever a `run_plan` trace contains the start command
`update_worker_task` for a task, the subscription to that task's topics
occurs at a strictly earlier position of the trace. -/
theorem subscription_precedes_start (env : RunPlanEnv) (name : String)
    (parameters : Option String) (timeout : Option ℚ) (w : WorkerTask)
    (h : CliAction.updateWorkerTask w ∈ run_plan env name parameters timeout) :
    ∃ i j, i < j ∧
      (run_plan env name parameters timeout).get? i =
        some (.subscribeToTopics w.task_id) ∧
      (run_plan env name parameters timeout).get? j =
        some (.updateWorkerTask w) := by
  cases hsc : env.stompConfigured with
  | false => simp [run_plan, hsc] at h
  | true =>
    cases hct : env.createTaskResult (runPlanTask env name parameters) with
    | validationError m => simp [run_plan, hsc, hct] at h
    | blueskyRemoteError m => simp [run_plan, hsc, hct] at h
    | valueError => simp [run_plan, hsc, hct] at h
    | ok task_id =>
      have hw : w = { task_id := task_id } := by
        cases htm : env.timedOut with
        | true => simpa [run_plan, hsc, hct, htm] using h
        | false =>
          cases hdp : dequePop (finishedEventBuffer env.delivered) with
          | none => simpa [run_plan, hsc, hct, htm, hdp] using h
          | some e => simpa [run_plan, hsc, hct, htm, hdp] using h
      subst hw
      refine ⟨2, 3, by omega, ?_, ?_⟩ <;>
        simp [run_plan, hsc, hct]

/-- C4 witness: a concrete successful run contains the start command,
preceded by the subscription. -/
theorem subscription_precedes_start_at_input :
    CliAction.updateWorkerTask { task_id := "tid" } ∈
      run_plan sampleEnv "sleep" none none ∧
    ∃ i j, i < j ∧
      (run_plan sampleEnv "sleep" none none).get? i =
        some (.subscribeToTopics ({ task_id := "tid" } : WorkerTask).task_id) ∧
      (run_plan sampleEnv "sleep" none none).get? j =
        some (.updateWorkerTask { task_id := "tid" }) :=
  ⟨by decide,
    subscription_precedes_start sampleEnv "sleep" none none
      { task_id := "tid" } (by decide)⟩

/-- C5: when the wait times out, `run_plan` logs the elapsed wait bound
and returns through the context manager's exit: after the wait the
trace holds exactly the timeout report and the disconnect — no worker
command is sent on that path, and nothing raises (in particular the
empty-buffer pop is never reached). -/
theorem timeout_reports_and_sends_no_command (env : RunPlanEnv) (name : String)
    (parameters : Option String) (timeout : Option ℚ) (task_id : String)
    (hs : env.stompConfigured = true)
    (hok : env.createTaskResult (runPlanTask env name parameters) = .ok task_id)
    (ht : env.timedOut = true) :
    run_plan env name parameters timeout =
      [.createTask (runPlanTask env name parameters), .connect,
       .subscribeToTopics task_id, .updateWorkerTask { task_id := task_id },
       .waitForComplete timeout, .logTimedOutError timeout, .disconnect] ∧
    (run_plan env name parameters timeout).drop 5 =
      [.logTimedOutError timeout, .disconnect] ∧
    (∀ w, CliAction.updateWorkerTask w ∉
      (run_plan env name parameters timeout).drop 5) ∧
    CliAction.popEmptyError ∉ run_plan env name parameters timeout := by
  have h1 : run_plan env name parameters timeout =
      [.createTask (runPlanTask env name parameters), .connect,
       .subscribeToTopics task_id, .updateWorkerTask { task_id := task_id },
       .waitForComplete timeout, .logTimedOutError timeout, .disconnect] := by
    simp [run_plan, hs, hok, ht]
  refine ⟨h1, ?_, ?_, ?_⟩ <;> rw [h1] <;> simp

/-- C5 witness: a concrete timed-out run. -/
theorem timeout_reports_and_sends_no_command_at_input :
    timedOutEnv.stompConfigured = true ∧
    timedOutEnv.createTaskResult (runPlanTask timedOutEnv "sleep" none) =
      .ok "tid" ∧
    timedOutEnv.timedOut = true ∧
    (run_plan timedOutEnv "sleep" none (some 5) =
      [.createTask (runPlanTask timedOutEnv "sleep" none), .connect,
       .subscribeToTopics "tid", .updateWorkerTask { task_id := "tid" },
       .waitForComplete (some 5), .logTimedOutError (some 5), .disconnect] ∧
     (run_plan timedOutEnv "sleep" none (some 5)).drop 5 =
       [.logTimedOutError (some 5), .disconnect] ∧
     (∀ w, CliAction.updateWorkerTask w ∉
       (run_plan timedOutEnv "sleep" none (some 5)).drop 5) ∧
     CliAction.popEmptyError ∉ run_plan timedOutEnv "sleep" none (some 5)) :=
  ⟨rfl, rfl, rfl,
    timeout_reports_and_sends_no_command timedOutEnv "sleep" none (some 5)
      "tid" rfl rfl rfl⟩

/-- C10: omitting the parameters argument, or passing the empty string,
is identical to passing the literal string "{}" — the whole `run_plan`
trace coincides — and when `json.loads` sends "{}" to the empty mapping
the constructed `Task` carries the empty parameter mapping. -/
theorem omitted_parameters_equal_empty_object (env : RunPlanEnv)
    (name : String) (timeout : Option ℚ) :
    run_plan env name none timeout = run_plan env name (some "{}") timeout ∧
    run_plan env name (some "") timeout =
      run_plan env name (some "{}") timeout ∧
    runPlanTask env name none = runPlanTask env name (some "{}") ∧
    (env.loads "{}" = [] →
      runPlanTask env name none = { name := name, params := [] }) := by
  have e1 : effectiveParameters none = effectiveParameters (some "{}") := by
    decide
  have e2 : effectiveParameters (some "") = effectiveParameters (some "{}") := by
    decide
  refine ⟨?_, ?_, ?_, ?_⟩
  · simp only [run_plan, runPlanTask, e1]
  · simp only [run_plan, runPlanTask, e2]
  · simp only [runPlanTask, e1]
  · intro hl
    simp [runPlanTask, effectiveParameters, hl]

/-- C10 witness: a concrete environment whose `loads` sends "{}" to the
empty mapping. -/
theorem omitted_parameters_equal_empty_object_at_input :
    run_plan sampleEnv "sleep" none none =
      run_plan sampleEnv "sleep" (some "{}") none ∧
    sampleEnv.loads "{}" = [] ∧
    runPlanTask sampleEnv "sleep" none = { name := "sleep", params := [] } :=
  ⟨(omitted_parameters_equal_empty_object sampleEnv "sleep" none).1, rfl,
    (omitted_parameters_equal_empty_object sampleEnv "sleep" none).2.2.2 rfl⟩

end Blueapi
